import Mathlib

set_option linter.unusedVariables false

/-!
Shallow embedding of the WebRTC signaling relay (src/unnamed/part_000,
`createServer` in rtc.ts of the server) and of the client session state
machine (src/src/client/rtc.ts, class `WebRTCClient`).

Sockets are modelled as natural-number handles; the relay registry
(`connections: Map<WebSocket, Peer>`) is an insertion-ordered association
list with at most one entry per handle, mirroring a JS `Map`.  SDP payloads
are strings and ICE candidate payloads are opaque naturals.  Effects
(socket sends, RTC transport calls, emitted events, console warnings) are
reified as explicit action/event traces returned next to the new state.
-/

namespace WebRTCBlog

/-- A peer record: a self-asserted id and a display name (`Peer` in
src/unnamed/part_002; the optional `remove` flag travels separately). -/
structure Peer where
  id : String
  name : String
deriving Repr, DecidableEq

/-- An ICE candidate envelope (`IceCandidate` in src/unnamed/part_002):
the sender's id, the target peer id, and an opaque candidate payload. -/
structure IceCandidate where
  id : String
  target : String
  candidate : Nat
deriving Repr, DecidableEq

/-- Client-to-relay protocol frames (`RtcMessage` in src/unnamed/part_002).
The sdp `type` field of offers/answers is folded into the sdp string. -/
inductive RtcMsg where
  | identify (p : Peer)
  | offerMsg (sdp source target : String)
  | acceptMsg (sdp source target : String)
  | rejectMsg (source target : String)
  | iceMsg (c : IceCandidate)
deriving Repr, DecidableEq

/-- Whether a frame is an `identify` frame (the relay treats every other
frame as a routed message). -/
def RtcMsg.isIdentify : RtcMsg → Bool
  | .identify _ => true
  | _ => false

/-- The `msg.data.target` field read by the relay's default branch.  For
routed frames this is the routing target; `identify` frames never reach
that branch (their `data` is a `Peer`, so we return its id). -/
def RtcMsg.msgTarget : RtcMsg → String
  | .identify p => p.id
  | .offerMsg _ _ t => t
  | .acceptMsg _ _ t => t
  | .rejectMsg _ t => t
  | .iceMsg c => c.target

namespace Relay

/-- The relay registry: `connections: Map<WebSocket, Peer>` as an
insertion-ordered association list from socket handle to peer record.
Invariant (a JS `Map` enforces it structurally): at most one entry per
handle. -/
abbrev Registry := List (Nat × Peer)

/-- Relay-to-client frames (`PeerMessage`, forwarded `RtcMessage`, and
`ReadyMessage`). `remove = false` models an absent `remove` field. -/
inductive ServerOut where
  | peerOut (p : Peer) (remove : Bool)
  | fwd (m : RtcMsg)
  | readyOut (version id : String)
deriving Repr, DecidableEq

/-- An observable relay event: a socket send, or the commit of a peer
record into the registry (`connections.set`). -/
inductive RelayEv where
  | send (dest : Nat) (out : ServerOut)
  | store (sock : Nat) (client : Peer)
deriving Repr, DecidableEq

/-- `connections.has(socket)`. -/
def mapHas (reg : Registry) (sock : Nat) : Bool :=
  reg.any (fun e => e.1 = sock)

/-- `connections.get(socket)`. -/
def mapGet (reg : Registry) (sock : Nat) : Option Peer :=
  (reg.find? (fun e => e.1 = sock)).map (·.2)

/-- `connections.set(socket, client)`: update in place when the handle is
present (keeping its position, as a JS `Map` does), else append. -/
def mapSet (reg : Registry) (sock : Nat) (v : Peer) : Registry :=
  if mapHas reg sock then reg.map (fun e => if e.1 = sock then (sock, v) else e)
  else reg ++ [(sock, v)]

/-- `getConnection(clientId)`: scan the registry in insertion order and
return the first socket whose stored record has the given id. -/
def getConnection : Registry → String → Option Nat
  | [], _ => none
  | (s, c) :: rest, clientId =>
    if c.id = clientId then some s else getConnection rest clientId

/-- `handleMessage(msg, socket)`.  An `identify` frame from an unknown
socket first queues one `peer` announcement to the newcomer per existing
entry (a snapshot of the registry at call time), then queues an
announcement of the new record to every entry whose stored id differs,
awaits all of them (`Promise.all`), and only then commits the record; the
returned trace lists sends in queueing order with the `store` event last.
Every other frame is forwarded verbatim to the connection whose id equals
`msg.data.target`, or silently dropped when there is none
(`socket?.send`). -/
def handleMessage (reg : Registry) (sock : Nat) (m : RtcMsg) :
    Registry × List RelayEv :=
  match m with
  | .identify client =>
    let snapshot : List RelayEv :=
      if mapHas reg sock then []
      else reg.map (fun e => RelayEv.send sock (ServerOut.peerOut e.2 false))
    let announce : List RelayEv :=
      (reg.filter (fun e => e.2.id ≠ client.id)).map
        (fun e => RelayEv.send e.1 (ServerOut.peerOut client false))
    (mapSet reg sock client, snapshot ++ announce ++ [.store sock client])
  | m =>
    match getConnection reg m.msgTarget with
    | some s => (reg, [.send s (.fwd m)])
    | none => (reg, [])

/-- The socket `close` handler: if the socket is registered, delete its
entry and send every remaining connection one `peer` frame with
`remove: true` describing the departed record; an unregistered socket
produces nothing.  (With at most one entry per handle, `filter` is the
`Map.delete` of the source.) -/
def handleClose (reg : Registry) (sock : Nat) : Registry × List RelayEv :=
  match mapGet reg sock with
  | none => (reg, [])
  | some client =>
    let rest := reg.filter (fun e => e.1 ≠ sock)
    (rest, rest.map (fun e => .send e.1 (.peerOut client true)))

/-- Concrete two-entry registry used by the relay witnesses. -/
def regW : Registry := [(1, ⟨"a1", "Alice"⟩), (2, ⟨"b1", "Bob"⟩)]

end Relay

namespace Client

/-- Messages exchanged between peers over the data channel
(`ClientMessage` in src/unnamed/part_002). -/
inductive ClientMsg where
  | chat (s : String)
  | disconnectMsg
deriving Repr, DecidableEq

/-- Events emitted to registered listeners (`RtcEvent` names). -/
inductive Emitted where
  | connectedEv
  | disconnectedEv
  | peeradded (p : Peer)
  | peerupdated (p : Peer)
  | peerremoved (p : Peer)
  | peerdisconnected (id : String)
  | offerEv (sdp source target : String)
  | chatEv (peerId message : String)
  | errorEv
deriving Repr, DecidableEq

/-- Observable client actions: relay sends, data-channel sends, RTC
transport capability calls, emitted events, console warnings, the page
reload, and timer/socket management. -/
inductive Act where
  | sendSignal (m : RtcMsg)
  | sendChannel (m : ClientMsg)
  | createTransport
  | createChannel
  | addTrack (t : Nat)
  | createOffer
  | createAnswer
  | setLocalDescription
  | setRemoteDescription
  | applyIceCandidate (c : Nat)
  | installIceSender
  | logWarn
  | emitEv (e : Emitted)
  | reload
  | closeChannel
  | closeTransport
  | closeSocket
  | scheduleReconnect
  | connectSignal
deriving Repr, DecidableEq

/-- The active peer connection (`PeerConnection` record in rtc.ts): the
peer, the data channel's readiness, whether `connection.remoteDescription`
has been set, and the FIFO queue of cached ICE candidate payloads. -/
structure PeerConnection where
  peer : Peer
  channelOpen : Bool
  remoteDescriptionSet : Bool
  iceCandidates : List Nat
deriving Repr, DecidableEq

/-- The private state of a `WebRTCClient`: `#closed`, `#version`, `#id`,
`#name`, `#peerConnection`, `#peers` (insertion-ordered id-keyed map),
whether a reconnect timer is pending (`#reconnectTimer`), whether
`#socket` is set, and the open media stream's tracks (`#stream`,
tracks as opaque naturals). -/
structure ClientState where
  closed : Bool
  version : String
  id : String
  name : String
  peerConnection : Option PeerConnection
  peers : List (String × Peer)
  reconnectTimerPending : Bool
  socket : Bool
  stream : Option (List Nat)
deriving Repr, DecidableEq

/-- What the external RTC transport capability returns: the sdp of a
generated offer/answer (empty models a missing sdp, the `!offer.sdp`
check), and which candidate payloads `addIceCandidate` rejects. -/
structure Env where
  offerSdp : String
  answerSdp : String
  iceFails : Nat → Bool

/-- Result of a fallible client operation.  An error mirrors a thrown JS
exception and carries the message together with the state and actions
already committed before the throw. -/
abbrev ClientRes := Except (String × ClientState × List Act) (ClientState × List Act)

/-- `#peers.get(k)`. -/
def peersGet (m : List (String × Peer)) (k : String) : Option Peer :=
  (m.find? (fun e => e.1 = k)).map (·.2)

/-- `#peers.set(k, v)`: JS `Map.set` semantics (update in place, else
append). -/
def peersSet (m : List (String × Peer)) (k : String) (v : Peer) :
    List (String × Peer) :=
  if m.any (fun e => e.1 = k) then m.map (fun e => if e.1 = k then (k, v) else e)
  else m ++ [(k, v)]

/-- `#sendToSignalServer`: throws "Client is not connected" when no socket
is set, else sends the frame. -/
def sendToSignalServer (st : ClientState) (m : RtcMsg) :
    Except String (List Act) :=
  if st.socket then .ok [.sendSignal m] else .error "Client is not connected"

/-- `#sendToPeer`: throws "No peer connection" without a session; with one,
sends over the channel when it is open, else only warns. -/
def sendToPeer (st : ClientState) (m : ClientMsg) :
    Except String (List Act) :=
  match st.peerConnection with
  | none => .error "No peer connection"
  | some pc =>
    if pc.channelOpen then .ok [.sendChannel m] else .ok [.logWarn]

/-- `#closeConnection`: tear down the channel and transport, clear the
session, and emit `peerdisconnected` with the peer's id; a no-op without a
session. -/
def closeConnection (st : ClientState) : ClientState × List Act :=
  match st.peerConnection with
  | none => (st, [])
  | some pc =>
    ({st with peerConnection := none},
     [.closeChannel, .closeTransport, .emitEv (.peerdisconnected pc.peer.id)])

/-- `disconnect()`: send a `disconnect` frame to the peer, then tear the
session down.  `#sendToPeer` throws before anything happens when no
session exists. -/
def disconnect (st : ClientState) : ClientRes :=
  match sendToPeer st .disconnectMsg with
  | .error e => .error (e, st, [])
  | .ok a1 =>
    let (st1, a2) := closeConnection st
    .ok (st1, a1 ++ a2)

/-- The session record built by `#createPeerConnection`: channel not yet
open, no remote description, empty ICE queue. -/
def newPeerConnection (peer : Peer) : PeerConnection :=
  { peer := peer, channelOpen := false,
    remoteDescriptionSet := false, iceCandidates := [] }

/-- `#createPeerConnection(peerId)`: guarded by (in order) an open stream,
no existing session, and the peer being known; then creates the transport
and negotiated data channel, stores the session, and attaches every local
track. -/
def createPeerConnection (st : ClientState) (peerId : String) : ClientRes :=
  match st.stream with
  | none => .error ("Stream must be open to create a peer connection", st, [])
  | some tracks =>
    if st.peerConnection.isSome then
      .error ("Client already has an active peer connection", st, [])
    else
      match peersGet st.peers peerId with
      | none => .error ("Unknown peer " ++ peerId, st, [])
      | some peer =>
        .ok ({st with peerConnection := some (newPeerConnection peer)},
             [.createTransport, .createChannel] ++ tracks.map Act.addTrack)

/-- The apply-or-warn step of `connection.addIceCandidate` inside a
`try`/`catch`: the apply is attempted for every candidate; a failing
candidate additionally logs a warning and does not abort the caller. -/
def applyOne (fails : Nat → Bool) (c : Nat) : List Act :=
  .applyIceCandidate c :: (if fails c then [.logWarn] else [])

/-- The `while (iceCandidates.length > 0) ... shift()` drain loop of
`#setRemoteDescription`: one pass over the queue in FIFO order, applying
each candidate, with per-candidate failures logged and skipped. -/
def drainIce (fails : Nat → Bool) (q : List Nat) : List Act :=
  q.flatMap (applyOne fails)

/-- `#addIceCandidate(candidate)`: throws without a session; drops (with a
warning) a candidate whose id is not the session peer's id; applies it
immediately when the remote description is set; otherwise appends it to
the pending queue. -/
def addIceCandidate (env : Env) (st : ClientState) (c : IceCandidate) :
    ClientRes :=
  match st.peerConnection with
  | none => .error ("No peer connection", st, [])
  | some pc =>
    if c.id ≠ pc.peer.id then .ok (st, [.logWarn])
    else if pc.remoteDescriptionSet then .ok (st, applyOne env.iceFails c.candidate)
    else
      let pc2 := {pc with iceCandidates := pc.iceCandidates ++ [c.candidate]}
      .ok ({st with peerConnection := some pc2}, [])

/-- `#setRemoteDescription(answerOrOffer)`: throws without a session;
throws when the frame's `source` is not the session peer's id (before
touching the transport); else sets the remote description and drains the
pending ICE queue in one FIFO pass, leaving it empty. -/
def setRemoteDescription (env : Env) (st : ClientState) (source : String) :
    ClientRes :=
  match st.peerConnection with
  | none => .error ("No peer connection", st, [])
  | some pc =>
    if pc.peer.id ≠ source then
      .error ("Answer or offer doesn't match pending peer connection", st, [])
    else
      let pc2 := {pc with remoteDescriptionSet := true, iceCandidates := []}
      .ok ({st with peerConnection := some pc2},
           .setRemoteDescription :: drainIce env.iceFails pc.iceCandidates)

/-- `#connectToPeer(answer)`: set the remote description, then install the
local ICE-candidate sender on the transport. -/
def connectToPeer (env : Env) (st : ClientState) (source : String) :
    ClientRes :=
  match setRemoteDescription env st source with
  | .error e => .error e
  | .ok (st1, a) => .ok (st1, a ++ [.installIceSender])

/-- `invite(peerId)`: create the session, `createOffer` (throwing when the
transport yields no sdp), `setLocalDescription`, then send
`offer {source: own id, target: peerId}`. -/
def invite (env : Env) (st : ClientState) (peerId : String) : ClientRes :=
  match createPeerConnection st peerId with
  | .error e => .error e
  | .ok (st1, a1) =>
    if env.offerSdp = "" then
      .error ("Unable to generate offer", st1, a1 ++ [.createOffer])
    else
      match sendToSignalServer st1 (.offerMsg env.offerSdp st1.id peerId) with
      | .error e => .error (e, st1, a1 ++ [.createOffer, .setLocalDescription])
      | .ok a2 => .ok (st1, a1 ++ [.createOffer, .setLocalDescription] ++ a2)

/-- An inbound offer as seen by `accept`/`reject` (sdp plus envelope). -/
structure Offer where
  sdp : String
  source : String
  target : String
deriving Repr, DecidableEq

/-- `accept(offer)`: create the session for `offer.source`, set the remote
description (draining any queued candidates), `createAnswer` (throwing
when the transport yields no sdp), `setLocalDescription`, send
`accept {source: own id, target: offer.source}`, then install the local
ICE-candidate sender. -/
def accept (env : Env) (st : ClientState) (o : Offer) : ClientRes :=
  match createPeerConnection st o.source with
  | .error e => .error e
  | .ok (st1, a1) =>
    match setRemoteDescription env st1 o.source with
    | .error (e, st2, a2) => .error (e, st2, a1 ++ a2)
    | .ok (st2, a2) =>
      if env.answerSdp = "" then
        .error ("Unable to generate answer", st2, a1 ++ a2 ++ [.createAnswer])
      else
        match sendToSignalServer st2 (.acceptMsg env.answerSdp st2.id o.source) with
        | .error e =>
          .error (e, st2, a1 ++ a2 ++ [.createAnswer, .setLocalDescription])
        | .ok a3 =>
          .ok (st2, a1 ++ a2 ++ [.createAnswer, .setLocalDescription]
                ++ a3 ++ [.installIceSender])

/-- `reject(offer)`: send `reject {source: own id, target: offer.source}`
to the relay; the client state is untouched. -/
def rejectInvite (st : ClientState) (o : Offer) : Except String (List Act) :=
  sendToSignalServer st (.rejectMsg st.id o.source)

/-- Relay-to-client frames as consumed by `#handleServerMessage`. -/
inductive ServerMsg where
  | peerMsg (p : Peer) (remove : Bool)
  | offerMsg (sdp source target : String)
  | acceptMsg (sdp source target : String)
  | rejectMsg (source target : String)
  | iceMsg (c : IceCandidate)
  | readyMsg (version id : String)
deriving Repr, DecidableEq

/-- `#handleServerMessage(message)`.  Failures of the inner operations are
swallowed with a warning, keeping whatever state had been committed (the
`try`/`catch` of the source; the un-awaited `#connectToPeer` rejection
surfaces as an unhandled-rejection log instead, with the same state
effect).  The `ready` branch reloads the page on a version mismatch;
otherwise it adopts the version (on first run), records the assigned id,
and sends `identify {id, name}`. -/
def handleServerMessage (env : Env) (st : ClientState) (msg : ServerMsg) :
    ClientState × List Act :=
  match msg with
  | .peerMsg p remove =>
    if remove then
      ({st with peers := st.peers.filter (fun e => e.1 ≠ p.id)},
       [.emitEv (.peerremoved p)])
    else
      let ev := if (peersGet st.peers p.id).isSome
        then Emitted.peerupdated p else Emitted.peeradded p
      ({st with peers := peersSet st.peers p.id p}, [.emitEv ev])
  | .offerMsg sdp source target => (st, [.emitEv (.offerEv sdp source target)])
  | .acceptMsg sdp source target =>
    match connectToPeer env st source with
    | .ok (st1, a) => (st1, a)
    | .error (_, st1, a) => (st1, a ++ [.logWarn])
  | .rejectMsg _ _ => closeConnection st
  | .iceMsg c =>
    match addIceCandidate env st c with
    | .ok (st1, a) => (st1, a)
    | .error (_, st1, a) => (st1, a ++ [.logWarn])
  | .readyMsg v i =>
    if st.version ≠ "" ∧ st.version ≠ v then (st, [.reload])
    else
      let st1 := {st with version := v, id := i}
      match sendToSignalServer st1 (.identify ⟨i, st.name⟩) with
      | .ok a => (st1, a)
      | .error _ => (st1, [.logWarn])

/-- Sequential processing of a list of inbound relay frames. -/
def runServerMessages (env : Env) (st : ClientState) :
    List ServerMsg → ClientState × List Act
  | [] => (st, [])
  | m :: rest =>
    let (st1, a1) := handleServerMessage env st m
    let (st2, a2) := runServerMessages env st1 rest
    (st2, a1 ++ a2)

/-- The socket `onclose` handler: clear `#socket`, emit `disconnected`,
and — when the client is not closed and a stream is open — schedule
exactly one reconnection attempt (replacing any pending one). -/
def handleSocketClose (st : ClientState) : ClientState × List Act :=
  if ¬st.closed ∧ st.stream.isSome then
    ({st with socket := false, reconnectTimerPending := true},
     [.emitEv .disconnectedEv, .scheduleReconnect])
  else
    ({st with socket := false}, [.emitEv .disconnectedEv])

/-- The reconnect timer firing: a no-op when a socket already exists, else
connect to the signal server; either way the timer is no longer pending. -/
def reconnectTimerFire (st : ClientState) : ClientState × List Act :=
  if st.socket then ({st with reconnectTimerPending := false}, [])
  else ({st with reconnectTimerPending := false, socket := true}, [.connectSignal])

/-- `close()`: cancel any pending reconnect timer, mark the client closed,
close the socket, clear listeners and peers, and close the stream. -/
def close (st : ClientState) : ClientState × List Act :=
  ({st with reconnectTimerPending := false, closed := true, socket := false,
            peers := [], stream := none},
   [.closeSocket])

/-- The spec's session phases, read off the client state: `Offering` while
a session exists whose remote description is not yet set, `Connected` once
it is, `Idle` without a session. -/
inductive SessionPhase where
  | idle
  | offering
  | connected
deriving Repr, DecidableEq

/-- Phase of the negotiation state machine for a given client state. -/
def phase (st : ClientState) : SessionPhase :=
  match st.peerConnection with
  | none => .idle
  | some pc => if pc.remoteDescriptionSet then .connected else .offering

/-- A session with extra candidate payloads appended to its pending ICE
queue (used to state how inbound candidates accumulate). -/
def queueAppended (pc : PeerConnection) (extra : List Nat) : PeerConnection :=
  {pc with iceCandidates := pc.iceCandidates ++ extra}

/-- A session after `#setRemoteDescription`: remote description set and
the pending ICE queue emptied by the drain. -/
def drainedSession (pc : PeerConnection) : PeerConnection :=
  {pc with remoteDescriptionSet := true, iceCandidates := []}

/-- The candidate payloads of the inbound candidates whose id matches the
session peer's id, in arrival order. -/
def matchingCandidates (pc : PeerConnection) (cs : List IceCandidate) : List Nat :=
  (cs.filter (fun c => c.id = pc.peer.id)).map IceCandidate.candidate

/-- Projection extracting the candidate applied by an action, if any. -/
def appliedCandidate : Act → Option Nat
  | .applyIceCandidate c => some c
  | _ => none

/-- Concrete environment for the client witnesses: the transport yields
offer sdp "osdp" and answer sdp "asdp", and rejects candidate payload 2. -/
def envC : Env := { offerSdp := "osdp", answerSdp := "asdp", iceFails := fun c => c = 2 }

/-- Concrete peer used by the client witnesses. -/
def aliceC : Peer := ⟨"alice", "Alice"⟩

/-- Concrete pending session with Alice (remote description not yet set). -/
def pcC : PeerConnection :=
  { peer := aliceC, channelOpen := true, remoteDescriptionSet := false,
    iceCandidates := [] }

/-- Concrete client state with an active session with Alice. -/
def stC : ClientState :=
  { closed := false, version := "v1", id := "me", name := "Me",
    peerConnection := some pcC, peers := [("alice", aliceC)],
    reconnectTimerPending := false, socket := true, stream := some [0, 1] }

/-- The same client state without a session. -/
def stIdleC : ClientState := {stC with peerConnection := none}

/-- Concrete inbound candidates: two from Alice (payloads 5 and 2, the
latter rejected by `envC`) around one from the unrelated id bob. -/
def icesW : List IceCandidate :=
  [⟨"alice", "me", 5⟩, ⟨"bob", "me", 6⟩, ⟨"alice", "me", 2⟩]

end Client

namespace Relay

/-- The registry scan finds no socket exactly when no entry carries the
requested id. -/
theorem getConnection_none_iff (reg : Registry) (t : String) :
    getConnection reg t = none ↔ ∀ e ∈ reg, e.2.id ≠ t := by
  induction reg with
  | nil => simp [getConnection]
  | cons hd tl ih =>
    obtain ⟨s, c⟩ := hd
    by_cases h : c.id = t
    · simp [getConnection, h]
    · simp [getConnection, h, ih]

/-- When some entry carries the requested id, the registry scan returns a
socket. -/
theorem getConnection_mem (reg : Registry) (t : String)
    (h : ∃ e ∈ reg, e.2.id = t) : ∃ s, getConnection reg t = some s := by
  induction reg with
  | nil => simp at h
  | cons hd tl ih =>
    obtain ⟨s, c⟩ := hd
    by_cases hc : c.id = t
    · exact ⟨s, by simp [getConnection, hc]⟩
    · simp only [getConnection, hc, if_false]
      apply ih
      rcases h with ⟨e, he, hid⟩
      rcases List.mem_cons.mp he with rfl | htl
      · exact absurd hid hc
      · exact ⟨e, htl, hid⟩

/-- C2: an `identify` from a connection not yet in the registry sends that
connection exactly one announcement (without `remove`) per connection
registered strictly before it, in registration order; sends each other
registered connection whose stored id differs from the record's id exactly
one announcement of the new record; and commits the record under the
connection only after all those sends (the `store` event is last in the
trace, after the `Promise.all` join), appending it to the registry. -/
theorem relay_identify_new_spec (reg : Registry) (sock : Nat) (client : Peer)
    (hnew : mapHas reg sock = false) :
    handleMessage reg sock (.identify client) =
      (reg ++ [(sock, client)],
       reg.map (fun e => RelayEv.send sock (ServerOut.peerOut e.2 false))
       ++ (reg.filter (fun e => e.2.id ≠ client.id)).map
            (fun e => RelayEv.send e.1 (ServerOut.peerOut client false))
       ++ [RelayEv.store sock client]) := by
  simp [handleMessage, mapSet, hnew]

/-- Witness for C2: Carol identifies from fresh socket 3 against the
two-entry registry. -/
theorem relay_identify_new_spec_witness :
    handleMessage regW 3 (.identify ⟨"c1", "Carol"⟩) =
      (regW ++ [(3, ⟨"c1", "Carol"⟩)],
       regW.map (fun e => RelayEv.send 3 (ServerOut.peerOut e.2 false))
       ++ (regW.filter (fun e => e.2.id ≠ "c1")).map
            (fun e => RelayEv.send e.1 (ServerOut.peerOut ⟨"c1", "Carol"⟩ false))
       ++ [RelayEv.store 3 ⟨"c1", "Carol"⟩]) :=
  relay_identify_new_spec regW 3 ⟨"c1", "Carol"⟩ (by decide)

/-- C6: a non-`identify` frame is forwarded verbatim (the frame itself,
unmodified) to the socket of the first registry entry whose id equals the
frame's target, with the registry untouched; when no entry matches, the
frame is silently dropped — no event at all is produced, in particular
nothing is sent back to the sender. -/
theorem relay_route_spec (reg : Registry) (sock : Nat) (m : RtcMsg)
    (hm : m.isIdentify = false) :
    ((∃ e ∈ reg, e.2.id = m.msgTarget) →
       ∃ s, getConnection reg m.msgTarget = some s ∧
         handleMessage reg sock m = (reg, [RelayEv.send s (ServerOut.fwd m)]))
    ∧ ((∀ e ∈ reg, e.2.id ≠ m.msgTarget) →
       handleMessage reg sock m = (reg, [])) := by
  constructor
  · intro hex
    obtain ⟨s, hs⟩ := getConnection_mem reg m.msgTarget hex
    refine ⟨s, hs, ?_⟩
    cases m with
    | identify p => simp [RtcMsg.isIdentify] at hm
    | offerMsg sdp source target => simp [handleMessage, hs]
    | acceptMsg sdp source target => simp [handleMessage, hs]
    | rejectMsg source target => simp [handleMessage, hs]
    | iceMsg c => simp [handleMessage, hs]
  · intro hall
    have hn : getConnection reg m.msgTarget = none :=
      (getConnection_none_iff _ _).mpr hall
    cases m with
    | identify p => simp [RtcMsg.isIdentify] at hm
    | offerMsg sdp source target => simp [handleMessage, hn]
    | acceptMsg sdp source target => simp [handleMessage, hn]
    | rejectMsg source target => simp [handleMessage, hn]
    | iceMsg c => simp [handleMessage, hn]

/-- Witness for C6: an offer targeting the registered id b1 is forwarded
verbatim to socket 2. -/
theorem relay_route_spec_witness :
    ∃ s, getConnection regW "b1" = some s ∧
      handleMessage regW 9 (.offerMsg "sdp" "c1" "b1") =
        (regW, [RelayEv.send s (ServerOut.fwd (.offerMsg "sdp" "c1" "b1"))]) :=
  (relay_route_spec regW 9 (.offerMsg "sdp" "c1" "b1") (by decide)).1
    ⟨(2, ⟨"b1", "Bob"⟩), by decide, by decide⟩

/-- C7: closing a registered connection removes its entry and sends every
remaining registered connection exactly one `peer` frame with
`remove: true` describing the departed record; closing a connection that
was never registered changes nothing and broadcasts nothing. -/
theorem relay_close_spec (reg : Registry) (sock : Nat) :
    (∀ client, mapGet reg sock = some client →
       handleClose reg sock =
         (reg.filter (fun e => e.1 ≠ sock),
          (reg.filter (fun e => e.1 ≠ sock)).map
            (fun e => RelayEv.send e.1 (ServerOut.peerOut client true))))
    ∧ (mapGet reg sock = none → handleClose reg sock = (reg, [])) := by
  constructor
  · intro client h
    simp [handleClose, h]
  · intro h
    simp [handleClose, h]

/-- Witness for C7: socket 2 (Bob) closes; socket 1 gets the single
`remove: true` broadcast. -/
theorem relay_close_spec_witness :
    handleClose regW 2 =
      ([(1, ⟨"a1", "Alice"⟩)],
       [RelayEv.send 1 (ServerOut.peerOut ⟨"b1", "Bob"⟩ true)]) := by
  have h := (relay_close_spec regW 2).1 ⟨"b1", "Bob"⟩ (by decide)
  rw [h]
  rfl

end Relay

namespace Client

/-- C1: while a session exists, `invite` and `accept` both fail
synchronously with a descriptive error — thrown by the guards of
`#createPeerConnection` before any mutation — so the error carries the
unchanged state and an empty action trace: no message is sent and nothing
in the client changes.  (With the stream also closed the stream guard
fires first; either way the call fails with a descriptive error and no
side effects.) -/
theorem single_session_spec (env : Env) (st : ClientState)
    (pc : PeerConnection) (peerId : String) (o : Offer)
    (h : st.peerConnection = some pc) :
    invite env st peerId =
      .error ((if st.stream.isSome then "Client already has an active peer connection"
               else "Stream must be open to create a peer connection"), st, [])
    ∧ accept env st o =
      .error ((if st.stream.isSome then "Client already has an active peer connection"
               else "Stream must be open to create a peer connection"), st, []) := by
  have hcpc : ∀ pid, createPeerConnection st pid =
      .error ((if st.stream.isSome then "Client already has an active peer connection"
               else "Stream must be open to create a peer connection"), st, []) := by
    intro pid
    cases hs : st.stream with
    | none => simp [createPeerConnection, hs]
    | some tracks => simp [createPeerConnection, hs, h]
  exact ⟨by simp [invite, hcpc], by simp [accept, hcpc]⟩

/-- Witness for C1: a second invite (and an accept) issued while the
session with Alice is active fails with the session-conflict error and no
side effects. -/
theorem single_session_spec_witness :
    invite envC stC "alice" =
      .error ("Client already has an active peer connection", stC, [])
    ∧ accept envC stC ⟨"sdp", "bob", "me"⟩ =
      .error ("Client already has an active peer connection", stC, []) := by
  have h := single_session_spec envC stC pcC "alice" ⟨"sdp", "bob", "me"⟩ rfl
  simpa using h

/-- C10: `disconnect()` with no session throws "No peer connection"
synchronously (from `#sendToPeer`, before `#closeConnection` runs): the
error carries the unchanged state and an empty action trace, so nothing is
sent and no `peerdisconnected` event is emitted — it is not a silent
no-op. -/
theorem disconnect_no_session_spec (st : ClientState)
    (h : st.peerConnection = none) :
    disconnect st = .error ("No peer connection", st, []) := by
  simp [disconnect, sendToPeer, h]

/-- Witness for C10 at the concrete sessionless state. -/
theorem disconnect_no_session_spec_witness :
    disconnect stIdleC = .error ("No peer connection", stIdleC, []) :=
  disconnect_no_session_spec stIdleC rfl

/-- C5: on `ready {version, id}`, a cached version differing from the
frame's version triggers the full reset (page reload) and suppresses
`identify`; a matching or absent cached version adopts the version,
records the assigned id, and sends `identify {id, name}` to the relay. -/
theorem ready_handshake_spec (env : Env) (st : ClientState) (v i : String) :
    (st.version ≠ "" → st.version ≠ v →
       handleServerMessage env st (.readyMsg v i) = (st, [Act.reload]))
    ∧ (st.socket = true → st.version = "" ∨ st.version = v →
       handleServerMessage env st (.readyMsg v i) =
         ({st with version := v, id := i},
          [Act.sendSignal (.identify ⟨i, st.name⟩)])) := by
  constructor
  · intro h1 h2
    simp [handleServerMessage, h1, h2]
  · intro hsock hv
    have hcond : ¬(st.version ≠ "" ∧ st.version ≠ v) := by
      rcases hv with h | h <;> simp [h]
    simp [handleServerMessage, hcond, sendToSignalServer, hsock]

/-- Witness for C5: a differing version ("v2") reloads without identify; a
matching version ("v1") records the new id and sends identify. -/
theorem ready_handshake_spec_witness :
    handleServerMessage envC stC (.readyMsg "v2" "n1") = (stC, [Act.reload])
    ∧ handleServerMessage envC stC (.readyMsg "v1" "n2") =
        ({stC with version := "v1", id := "n2"},
         [Act.sendSignal (.identify ⟨"n2", "Me"⟩)]) :=
  ⟨(ready_handshake_spec envC stC "v2" "n1").1 (by decide) (by decide),
   (ready_handshake_spec envC stC "v1" "n2").2 rfl (Or.inr rfl)⟩

/-- C4 counterexample: with a pending session with Alice, an inbound
`reject` whose source is the unrelated id "mallory" tears the session
down — the code's reject branch calls `#closeConnection` without checking
the source — contradicting "logged and ignored, Session state
unchanged". -/
theorem session_mismatch_counterexample :
    stC.peerConnection ≠ none
    ∧ (handleServerMessage envC stC (.rejectMsg "mallory" "me")).1.peerConnection
        = none := by
  constructor
  · decide
  · decide

/-- C4 (amended): an inbound `accept` whose source does not match the
pending session's peer id is logged and ignored with the session state
unchanged (the mismatch throw of `#setRemoteDescription` fires before the
transport is touched); an inbound `reject`, however, is not validated:
whatever its source, it tears the session down, emitting
`peerdisconnected`. -/
theorem session_mismatch_spec (env : Env) (st : ClientState)
    (pc : PeerConnection) (sdp src tgt : String)
    (hpc : st.peerConnection = some pc) (hmis : pc.peer.id ≠ src) :
    handleServerMessage env st (.acceptMsg sdp src tgt) = (st, [Act.logWarn])
    ∧ handleServerMessage env st (.rejectMsg src tgt) =
        ({st with peerConnection := none},
         [Act.closeChannel, Act.closeTransport,
          Act.emitEv (.peerdisconnected pc.peer.id)]) := by
  constructor
  · simp [handleServerMessage, connectToPeer, setRemoteDescription, hpc, hmis]
  · simp [handleServerMessage, closeConnection, hpc]

/-- Witness for the amended C4 at the concrete session with Alice and the
mismatched source "mallory". -/
theorem session_mismatch_spec_witness :
    handleServerMessage envC stC (.acceptMsg "sdp" "mallory" "me")
      = (stC, [Act.logWarn])
    ∧ handleServerMessage envC stC (.rejectMsg "mallory" "me") =
        ({stC with peerConnection := none},
         [Act.closeChannel, Act.closeTransport,
          Act.emitEv (.peerdisconnected "alice")]) :=
  session_mismatch_spec envC stC pcC "sdp" "mallory" "me" rfl (by decide)

/-- C8 counterexample: with the media stream open and no session,
`invite("bob")` still fails because bob is not in the known-peers map —
`#createPeerConnection` throws "Unknown peer" — so invite does not succeed
whenever a media capability is open and no session exists. -/
theorem invite_unknown_peer_counterexample :
    stIdleC.stream.isSome = true ∧ stIdleC.peerConnection = none
    ∧ invite envC stIdleC "bob" = .error ("Unknown peer bob", stIdleC, []) := by
  refine ⟨by decide, by decide, by rfl⟩

/-- C8 (amended): from Idle, `invite(peerId)` succeeds whenever a media
capability is open, no session exists, `peerId` is a known peer, the relay
socket is connected, and the transport yields an offer sdp: it creates the
transport and data channel, attaches each local track, calls `createOffer`
then `setLocalDescription`, sends `offer {source: own id, target: peerId}`,
and enters Offering. -/
theorem invite_success_spec (env : Env) (st : ClientState) (peerId : String)
    (tracks : List Nat) (peer : Peer)
    (hstream : st.stream = some tracks)
    (hnopc : st.peerConnection = none)
    (hpeer : peersGet st.peers peerId = some peer)
    (hsock : st.socket = true)
    (hsdp : env.offerSdp ≠ "") :
    invite env st peerId =
      .ok ({st with peerConnection := some (newPeerConnection peer)},
           [Act.createTransport, Act.createChannel] ++ tracks.map Act.addTrack
           ++ [Act.createOffer, Act.setLocalDescription,
               Act.sendSignal (.offerMsg env.offerSdp st.id peerId)])
    ∧ phase {st with peerConnection := some (newPeerConnection peer)}
        = .offering := by
  constructor
  · simp [invite, createPeerConnection, hstream, hnopc, hpeer,
          sendToSignalServer, hsock, hsdp]
  · simp [phase, newPeerConnection]

/-- Witness for the amended C8: inviting the known peer Alice from the
concrete idle state. -/
theorem invite_success_spec_witness :
    invite envC stIdleC "alice" =
      .ok ({stIdleC with peerConnection := some (newPeerConnection aliceC)},
           [Act.createTransport, Act.createChannel] ++ [0, 1].map Act.addTrack
           ++ [Act.createOffer, Act.setLocalDescription,
               Act.sendSignal (.offerMsg "osdp" "me" "alice")])
    ∧ phase {stIdleC with peerConnection := some (newPeerConnection aliceC)}
        = .offering :=
  invite_success_spec envC stIdleC "alice" [0, 1] aliceC rfl rfl rfl rfl
    (by decide)

/-- Appending nothing to a session's ICE queue changes nothing. -/
theorem queueAppended_nil (pc : PeerConnection) : queueAppended pc [] = pc := by
  obtain ⟨p, ch, rd, ice⟩ := pc
  simp [queueAppended]

/-- The drain loop attempts every queued candidate in FIFO order: the
subsequence of applied candidates is the whole queue, whatever the set of
failing candidates. -/
theorem drainIce_filterMap (fails : Nat → Bool) (q : List Nat) :
    (drainIce fails q).filterMap appliedCandidate = q := by
  induction q with
  | nil => simp [drainIce]
  | cons c q ih =>
    simp only [drainIce] at ih
    by_cases h : fails c
    · simp [drainIce, applyOne, appliedCandidate, h, ih]
    · simp [drainIce, applyOne, appliedCandidate, h, ih]

/-- Processing a run of inbound `icecandidate` frames while a session's
remote description is unset only appends the matching candidates, in
arrival order, to the pending queue; mismatched candidates never enter
it. -/
theorem runIce_state (env : Env) (cs : List IceCandidate) :
    ∀ st pc, st.peerConnection = some pc → pc.remoteDescriptionSet = false →
      (runServerMessages env st (cs.map ServerMsg.iceMsg)).1 =
        {st with peerConnection := some (queueAppended pc (matchingCandidates pc cs))} := by
  induction cs with
  | nil =>
    intro st pc hpc hrd
    rw [show matchingCandidates pc [] = [] from rfl, queueAppended_nil, ← hpc]
    rfl
  | cons c cs ih =>
    intro st pc hpc hrd
    obtain ⟨p, ch, rd, ice⟩ := pc
    have hrd2 : rd = false := hrd
    subst hrd2
    by_cases hid : c.id = p.id
    · have h1 : handleServerMessage env st (.iceMsg c) =
          ({st with peerConnection := some ⟨p, ch, false, ice ++ [c.candidate]⟩}, []) := by
        simp [handleServerMessage, addIceCandidate, hpc, hid]
      have h2 := ih {st with peerConnection := some ⟨p, ch, false, ice ++ [c.candidate]⟩}
          ⟨p, ch, false, ice ++ [c.candidate]⟩ (by simp) rfl
      simp only [List.map_cons, runServerMessages, h1, h2]
      simp [queueAppended, matchingCandidates, hid]
    · have h1 : handleServerMessage env st (.iceMsg c) = (st, [Act.logWarn]) := by
        simp [handleServerMessage, addIceCandidate, hpc, hid]
      have h2 := ih st ⟨p, ch, false, ice⟩ hpc rfl
      simp only [List.map_cons, runServerMessages, h1, h2]
      simp [queueAppended, matchingCandidates, hid]

/-- C3: for any sequence of inbound `icecandidate` frames received while
the session's remote description is unset, candidates whose id does not
match the session peer's id are dropped with a warning and never enter the
queue, matching candidates are appended in arrival order, and the
`#setRemoteDescription` step then drains the whole queue in one FIFO pass
(leaving it empty), attempting every candidate even when some applications
fail (failures only add a warning). -/
theorem ice_queue_spec (env : Env) (st : ClientState) (pc : PeerConnection)
    (cs : List IceCandidate)
    (hpc : st.peerConnection = some pc)
    (hrd : pc.remoteDescriptionSet = false) :
    (runServerMessages env st (cs.map ServerMsg.iceMsg)).1 =
      {st with peerConnection := some (queueAppended pc (matchingCandidates pc cs))}
    ∧ setRemoteDescription env
        {st with peerConnection := some (queueAppended pc (matchingCandidates pc cs))}
        pc.peer.id =
      .ok ({st with peerConnection := some (drainedSession pc)},
           Act.setRemoteDescription ::
             drainIce env.iceFails (pc.iceCandidates ++ matchingCandidates pc cs))
    ∧ (drainIce env.iceFails (pc.iceCandidates ++ matchingCandidates pc cs)).filterMap
        appliedCandidate = pc.iceCandidates ++ matchingCandidates pc cs := by
  refine ⟨runIce_state env cs st pc hpc hrd, ?_, drainIce_filterMap _ _⟩
  obtain ⟨p, ch, rd, ice⟩ := pc
  simp [setRemoteDescription, queueAppended, drainedSession, matchingCandidates]

/-- Witness for C3: Alice's candidates 5 and 2 are queued in order (the
one from the unrelated id bob is dropped), and setting the remote
description drains both, with the failing payload 2 still attempted. -/
theorem ice_queue_spec_witness :
    (runServerMessages envC stC (icesW.map ServerMsg.iceMsg)).1 =
      {stC with peerConnection := some (queueAppended pcC (matchingCandidates pcC icesW))}
    ∧ setRemoteDescription envC
        {stC with peerConnection := some (queueAppended pcC (matchingCandidates pcC icesW))}
        "alice" =
      .ok ({stC with peerConnection := some (drainedSession pcC)},
           Act.setRemoteDescription ::
             drainIce envC.iceFails (pcC.iceCandidates ++ matchingCandidates pcC icesW)) :=
  ⟨(ice_queue_spec envC stC pcC icesW rfl rfl).1,
   (ice_queue_spec envC stC pcC icesW rfl rfl).2.1⟩

/-- C9: (a) an unexpected socket close while the client is not closed and
the stream is open schedules exactly one reconnection attempt (one
`scheduleReconnect` in the trace, replacing any pending timer); (b) the
scheduled attempt is a no-op when a socket already exists at fire time;
(c) `close()` cancels any pending attempt, and a socket close arriving
after shutdown schedules nothing, so no reconnect occurs. -/
theorem reconnect_policy_spec (st : ClientState) :
    (st.closed = false → st.stream.isSome = true →
       handleSocketClose st =
         ({st with socket := false, reconnectTimerPending := true},
          [Act.emitEv .disconnectedEv, Act.scheduleReconnect]))
    ∧ (st.socket = true →
       reconnectTimerFire st = ({st with reconnectTimerPending := false}, []))
    ∧ ((close st).1.reconnectTimerPending = false
       ∧ (handleSocketClose (close st).1).2 = [Act.emitEv .disconnectedEv]
       ∧ (handleSocketClose (close st).1).1.reconnectTimerPending = false) := by
  refine ⟨?_, ?_, ?_, ?_, ?_⟩
  · intro h1 h2
    simp [handleSocketClose, h1, h2]
  · intro h
    simp [reconnectTimerFire, h]
  · simp [close]
  · simp [handleSocketClose, close]
  · simp [handleSocketClose, close]

/-- Witness for C9 at the concrete connected state. -/
theorem reconnect_policy_spec_witness :
    handleSocketClose stC =
      ({stC with socket := false, reconnectTimerPending := true},
       [Act.emitEv .disconnectedEv, Act.scheduleReconnect])
    ∧ reconnectTimerFire stC = ({stC with reconnectTimerPending := false}, [])
    ∧ (close stC).1.reconnectTimerPending = false :=
  ⟨(reconnect_policy_spec stC).1 rfl rfl,
   (reconnect_policy_spec stC).2.1 rfl,
   (reconnect_policy_spec stC).2.2.1⟩

end Client

end WebRTCBlog
